import Mathlib

/-
Verification of the IssueHub frontend HTTP client layer: the axios
instance with its two interceptors (bearer-token attachment, global 401
handling), the thin per-resource API wrappers, the failure-message
derivation in the Login and ProjectDetail pages, and the AuthProvider
bootstrap logic.

The embedding is a direct translation of the JavaScript source:
  - localStorage (keys "token" and "user") becomes the Store structure;
  - the request interceptor becomes a pure function on request configs;
  - the response interceptor error arm becomes a state transformer that
    also emits a trace of observable side effects (removals, redirect)
    so that ordering and multiplicity of effects can be stated;
  - each API wrapper takes the HTTP exchange as a function argument
    (HttpCall to Except) and mirrors the await / return response.data
    body of the source;
  - JavaScript truthiness on strings (null and the empty string are
    falsy) is translated explicitly at each site that tests it.
-/

/-- The session store backed by localStorage: the two keys the client
uses, each either absent (getItem returns null) or holding a string. -/
structure Store where
  token : Option String
  user : Option String
deriving DecidableEq, Repr

/-- Parsed JSON body of a response (or a request). Only the detail
field is ever inspected by the code in scope; rest stands for the
remainder of the payload, carried opaquely. -/
structure RespBody where
  detail : Option String := none
  rest : String := ""
deriving DecidableEq, Repr

/-- An HTTP response as axios delivers it: status code and parsed body. -/
structure Response where
  status : Nat
  data : RespBody
deriving DecidableEq, Repr

/-- An axios error. For an HTTP-level failure, response holds the
server response; for a transport failure no response is present. -/
structure AxiosError where
  response : Option Response
deriving DecidableEq, Repr

/-- The status test written error.response?.status in the source:
none when no response reached the client. -/
def AxiosError.respStatus (e : AxiosError) : Option Nat :=
  e.response.map Response.status

/-- Request headers as an ordered key-value list. -/
def Headers := List (String × String)
deriving DecidableEq, Repr

/-- Assignment config.headers\x7bkey\x7d = value: overwrite the first
matching key, or append when absent. -/
def setHeader (hs : Headers) (k v : String) : Headers :=
  match hs with
  | [] => [(k, v)]
  | (k2, v2) :: rest =>
      if k2 = k then (k, v) :: rest else (k2, v2) :: setHeader rest k v

/-- Header lookup: first value stored under the key, if any. -/
def getHeader (hs : Headers) (k : String) : Option String :=
  match hs with
  | [] => none
  | (k2, v) :: rest => if k2 = k then some v else getHeader rest k

/-- An outgoing request configuration (the axios config object). -/
structure RequestConfig where
  headers : Headers
deriving DecidableEq, Repr

/-- The fixed instance configuration from axios.create: the default
content-type header attached to every request before interception. -/
def defaultConfig : RequestConfig :=
  { headers := [("Content-Type", "application/json")] }

/-- The request interceptor: read the token from the store; if it is
truthy (present and non-empty, per JavaScript string truthiness),
set the Authorization header to Bearer followed by the token;
otherwise pass the config through unchanged. -/
def requestInterceptor (store : Store) (config : RequestConfig) :
    RequestConfig :=
  match store.token with
  | some token =>
      if token ≠ "" then
        { config with
            headers := setHeader config.headers "Authorization"
              ("Bearer " ++ token) }
      else config
  | none => config

/-- Observable side effects of the response interceptor error arm, in
the order the source performs them. -/
inductive Effect where
  | removeToken : Effect
  | removeUser : Effect
  | redirect : String → Effect
deriving DecidableEq, Repr

/-- Outcome handed back to the awaiting caller: a fulfilled response or
a rejected error (Promise.reject). -/
inductive InterceptorResult where
  | resolve : Response → InterceptorResult
  | reject : AxiosError → InterceptorResult
deriving DecidableEq, Repr

/-- Ambient client state the interceptor touches: the session store and
the current navigation location (window.location.pathname). -/
structure ClientState where
  store : Store
  location : String
deriving DecidableEq, Repr

/-- The response interceptor success arm: pass the response through. -/
def responseInterceptorFulfilled (r : Response) : InterceptorResult :=
  InterceptorResult.resolve r

/-- The response interceptor error arm. When the error carries a
response with status 401: remove the token, remove the user, and, when
the current location is not the login path, navigate to the login
path. In every case the original error is rejected onward. The emitted
action list records the effects in source order. -/
def responseInterceptorRejected (st : ClientState) (err : AxiosError) :
    ClientState × List Effect × InterceptorResult :=
  if err.respStatus = some 401 then
    let cleared : Store := { st.store with token := none, user := none }
    if st.location ≠ "/login" then
      ({ store := cleared, location := "/login" },
       [Effect.removeToken, Effect.removeUser, Effect.redirect "/login"],
       InterceptorResult.reject err)
    else
      ({ st with store := cleared },
       [Effect.removeToken, Effect.removeUser],
       InterceptorResult.reject err)
  else
    (st, [], InterceptorResult.reject err)

/-- One HTTP call as issued through the axios instance: verb, path
(relative to the base URL), optional JSON body, optional flat query
parameters (the axios params option). -/
structure HttpCall where
  method : String
  url : String
  body : Option RespBody := none
  params : List (String × String) := []
deriving DecidableEq, Repr

/-- The HTTP exchange an API wrapper performs: issuing a call either
yields a response or throws an axios error. The wrappers receive it as
an argument so their pass-through behavior can be stated for every
possible outcome. -/
def Exchange : Type := HttpCall → Except AxiosError Response

namespace authAPI

/-- POST /auth/signup with the registration data; returns the body. -/
def signup (ex : Exchange) (data : RespBody) :
    Except AxiosError RespBody :=
  match ex { method := "post", url := "/auth/signup", body := some data } with
  | Except.ok response => Except.ok response.data
  | Except.error e => Except.error e

/-- POST /auth/login with the credentials; returns the body. -/
def login (ex : Exchange) (credentials : RespBody) :
    Except AxiosError RespBody :=
  match ex { method := "post", url := "/auth/login",
             body := some credentials } with
  | Except.ok response => Except.ok response.data
  | Except.error e => Except.error e

/-- GET /auth/me; returns the body. -/
def getCurrentUser (ex : Exchange) : Except AxiosError RespBody :=
  match ex { method := "get", url := "/auth/me" } with
  | Except.ok response => Except.ok response.data
  | Except.error e => Except.error e

end authAPI

namespace projectsAPI

/-- GET /projects; returns the body. -/
def getProjects (ex : Exchange) : Except AxiosError RespBody :=
  match ex { method := "get", url := "/projects" } with
  | Except.ok response => Except.ok response.data
  | Except.error e => Except.error e

/-- POST /projects with the new project data; returns the body. -/
def createProject (ex : Exchange) (data : RespBody) :
    Except AxiosError RespBody :=
  match ex { method := "post", url := "/projects", body := some data } with
  | Except.ok response => Except.ok response.data
  | Except.error e => Except.error e

/-- GET /projects/:id; returns the body. -/
def getProject (ex : Exchange) (projectId : Nat) :
    Except AxiosError RespBody :=
  match ex { method := "get", url := "/projects/" ++ toString projectId } with
  | Except.ok response => Except.ok response.data
  | Except.error e => Except.error e

/-- POST /projects/:id/members with the member data; returns the body. -/
def addMember (ex : Exchange) (projectId : Nat) (data : RespBody) :
    Except AxiosError RespBody :=
  match ex { method := "post",
             url := "/projects/" ++ toString projectId ++ "/members",
             body := some data } with
  | Except.ok response => Except.ok response.data
  | Except.error e => Except.error e

end projectsAPI

namespace issuesAPI

/-- GET /projects/:id/issues forwarding the filter params; returns the
body. -/
def getIssues (ex : Exchange) (projectId : Nat)
    (params : List (String × String)) : Except AxiosError RespBody :=
  match ex { method := "get",
             url := "/projects/" ++ toString projectId ++ "/issues",
             params := params } with
  | Except.ok response => Except.ok response.data
  | Except.error e => Except.error e

/-- POST /projects/:id/issues with the new issue data; returns the
body. -/
def createIssue (ex : Exchange) (projectId : Nat) (data : RespBody) :
    Except AxiosError RespBody :=
  match ex { method := "post",
             url := "/projects/" ++ toString projectId ++ "/issues",
             body := some data } with
  | Except.ok response => Except.ok response.data
  | Except.error e => Except.error e

/-- GET /issues/:id; returns the body. -/
def getIssue (ex : Exchange) (issueId : Nat) : Except AxiosError RespBody :=
  match ex { method := "get", url := "/issues/" ++ toString issueId } with
  | Except.ok response => Except.ok response.data
  | Except.error e => Except.error e

/-- PATCH /issues/:id with the fields to update; returns the body. -/
def updateIssue (ex : Exchange) (issueId : Nat) (data : RespBody) :
    Except AxiosError RespBody :=
  match ex { method := "patch", url := "/issues/" ++ toString issueId,
             body := some data } with
  | Except.ok response => Except.ok response.data
  | Except.error e => Except.error e

/-- DELETE /issues/:id. The source awaits the call and returns no
value: a successful response body is discarded. -/
def deleteIssue (ex : Exchange) (issueId : Nat) : Except AxiosError Unit :=
  match ex { method := "delete", url := "/issues/" ++ toString issueId } with
  | Except.ok _ => Except.ok ()
  | Except.error e => Except.error e

end issuesAPI

namespace commentsAPI

/-- GET /issues/:id/comments; returns the body. -/
def getComments (ex : Exchange) (issueId : Nat) :
    Except AxiosError RespBody :=
  match ex { method := "get",
             url := "/issues/" ++ toString issueId ++ "/comments" } with
  | Except.ok response => Except.ok response.data
  | Except.error e => Except.error e

/-- POST /issues/:id/comments with the comment data; returns the body. -/
def createComment (ex : Exchange) (issueId : Nat) (data : RespBody) :
    Except AxiosError RespBody :=
  match ex { method := "post",
             url := "/issues/" ++ toString issueId ++ "/comments",
             body := some data } with
  | Except.ok response => Except.ok response.data
  | Except.error e => Except.error e

end commentsAPI

/-- The expression written x || fallback on an optionally-present
string: the fallback is used when the value is absent or empty, the
two falsy cases of a string-or-undefined value in JavaScript. -/
def jsOrElse (x : Option String) (fallback : String) : String :=
  match x with
  | some s => if s ≠ "" then s else fallback
  | none => fallback

/-- The chain err.response?.data?.detail from the page catch blocks. -/
def AxiosError.bodyDetail (e : AxiosError) : Option String :=
  match e.response with
  | some r => r.data.detail
  | none => none

/-- The message shown by the Login page catch block:
err.response?.data?.detail || a fixed generic string. -/
def loginFailureMessage (err : AxiosError) : String :=
  jsOrElse err.bodyDetail "Login failed. Please try again."

/-- The message shown by the ProjectDetail add-member catch block:
err.response?.data?.detail || a fixed generic string. -/
def addMemberFailureMessage (err : AxiosError) : String :=
  jsOrElse err.bodyDetail "Failed to add member"

/-- Provider state the AuthProvider effect establishes: the user set
on success and the loading flag cleared at the end. -/
structure AuthState where
  user : Option RespBody
  loading : Bool
deriving DecidableEq, Repr

/-- The AuthProvider mount effect. Read the token from the store; when
it is truthy, fetch the current user profile: on success set the user,
on any failure (the catch binds no error and inspects nothing) remove
the token and the user from the store. In every path, finish with
loading cleared and without rethrowing. The profile fetch outcome is
passed in as a parameter. -/
def initAuth (store : Store) (fetchOutcome : Except AxiosError RespBody) :
    Store × AuthState :=
  match store.token with
  | some token =>
      if token ≠ "" then
        match fetchOutcome with
        | Except.ok userData =>
            (store, { user := some userData, loading := false })
        | Except.error _ =>
            ({ store with token := none, user := none },
             { user := none, loading := false })
      else (store, { user := none, loading := false })
  | none => (store, { user := none, loading := false })

/-- Looking up the key just set by setHeader yields the value set. -/
theorem getHeader_setHeader (hs : Headers) (k v : String) :
    getHeader (setHeader hs k v) k = some v := by
  induction hs with
  | nil => simp [setHeader, getHeader]
  | cons hd tl ih =>
      obtain ⟨k2, v2⟩ := hd
      by_cases hk : k2 = k
      · simp [setHeader, getHeader, hk]
      · simp [setHeader, getHeader, hk, ih]

/-- The await-then-return-data shape every wrapper uses is exactly the
pass-through map on the exchange outcome: body kept verbatim on
success, error kept verbatim on failure. -/
theorem passThrough_data (o : Except AxiosError Response) :
    (match o with
     | Except.ok r => Except.ok r.data
     | Except.error e => Except.error e) = o.map Response.data := by
  cases o <;> rfl

/-- The await-and-discard shape of deleteIssue as a map on the
exchange outcome. -/
theorem passThrough_unit (o : Except AxiosError Response) :
    (match o with
     | Except.ok _ => Except.ok ()
     | Except.error e => Except.error e)
      = o.map (fun _ => (() : Unit)) := by
  cases o <;> rfl

/-- C1: on any response with status 401, whatever the originating path
or method, the interceptor removes the token and the cached user from
the store, each removal occurring exactly once, the redirect to the
login view is triggered if and only if the current location is not the
login view, and the emitted effect trace places both removals before
any redirect. -/
theorem response_interceptor_401_clears_then_redirects
    (st : ClientState) (err : AxiosError) (resp : Response)
    (h : err.response = some resp) (h401 : resp.status = 401) :
    (responseInterceptorRejected st err).1.store.token = none ∧
    (responseInterceptorRejected st err).1.store.user = none ∧
    (responseInterceptorRejected st err).2.1.count Effect.removeToken = 1 ∧
    (responseInterceptorRejected st err).2.1.count Effect.removeUser = 1 ∧
    (Effect.redirect "/login" ∈ (responseInterceptorRejected st err).2.1 ↔
      st.location ≠ "/login") ∧
    (responseInterceptorRejected st err).2.1 =
      (if st.location ≠ "/login" then
        [Effect.removeToken, Effect.removeUser, Effect.redirect "/login"]
       else [Effect.removeToken, Effect.removeUser]) := by
  have hst : err.respStatus = some 401 := by
    simp [AxiosError.respStatus, h, h401]
  by_cases hloc : st.location = "/login" <;>
    simp [responseInterceptorRejected, hst, hloc] <;> decide

/-- C1 witness: a 401 on GET issued from the projects view clears the
store and redirects, with the effect trace in the stated order. -/
theorem response_interceptor_401_clears_then_redirects_witness :
    (({ response := some { status := 401, data := {} } } :
        AxiosError).response = some { status := 401, data := {} } ∧
      (401 : Nat) = 401) ∧
    ((responseInterceptorRejected
        { store := { token := some "abc", user := some "u" },
          location := "/projects" }
        { response := some { status := 401, data := {} } }).1.store.token
        = none ∧
      (responseInterceptorRejected
        { store := { token := some "abc", user := some "u" },
          location := "/projects" }
        { response := some { status := 401, data := {} } }).1.store.user
        = none ∧
      (responseInterceptorRejected
        { store := { token := some "abc", user := some "u" },
          location := "/projects" }
        { response := some { status := 401, data := {} } }).2.1.count
          Effect.removeToken = 1 ∧
      (responseInterceptorRejected
        { store := { token := some "abc", user := some "u" },
          location := "/projects" }
        { response := some { status := 401, data := {} } }).2.1.count
          Effect.removeUser = 1 ∧
      (Effect.redirect "/login" ∈
        (responseInterceptorRejected
          { store := { token := some "abc", user := some "u" },
            location := "/projects" }
          { response := some { status := 401, data := {} } }).2.1 ↔
        ({ store := { token := some "abc", user := some "u" },
           location := "/projects" } : ClientState).location ≠ "/login") ∧
      (responseInterceptorRejected
        { store := { token := some "abc", user := some "u" },
          location := "/projects" }
        { response := some { status := 401, data := {} } }).2.1 =
        (if ({ store := { token := some "abc", user := some "u" },
               location := "/projects" } : ClientState).location ≠ "/login"
         then
          [Effect.removeToken, Effect.removeUser, Effect.redirect "/login"]
         else [Effect.removeToken, Effect.removeUser])) :=
  ⟨⟨rfl, rfl⟩,
    response_interceptor_401_clears_then_redirects
      { store := { token := some "abc", user := some "u" },
        location := "/projects" }
      { response := some { status := 401, data := {} } }
      { status := 401, data := {} } rfl rfl⟩

/-- C2 counterexample: with the empty string stored under the token
key the token is present in the session store, yet the interceptor
transmits the request with no authorization header at all, so the
claim fails as stated for this request. -/
theorem bearer_attach_empty_token_counterexample :
    ({ token := some "", user := none } : Store).token.isSome = true ∧
    requestInterceptor { token := some "", user := none } defaultConfig
      = defaultConfig ∧
    getHeader (requestInterceptor { token := some "", user := none }
        defaultConfig).headers "Authorization" = none := by
  refine ⟨rfl, by decide, by decide⟩

/-- C2 amended: for every outgoing request issued while a non-empty
token is present in the session store, the transmitted request carries
an authorization header whose value is the string Bearer followed by a
space and that token; the attachment is a mandatory interceptor step
applied to every request configuration, not controllable by the
caller. (An empty-string token is treated as absent by the JavaScript
truthiness test and attaches nothing.) -/
theorem bearer_attached_for_nonempty_token
    (st : Store) (cfg : RequestConfig) (t : String)
    (h : st.token = some t) (hne : t ≠ "") :
    getHeader (requestInterceptor st cfg).headers "Authorization"
      = some ("Bearer " ++ t) := by
  simp [requestInterceptor, h, hne, getHeader_setHeader]

/-- C2 witness: token abc yields the header value Bearer abc. -/
theorem bearer_attached_for_nonempty_token_witness :
    (({ token := some "abc", user := none } : Store).token = some "abc" ∧
      "abc" ≠ "") ∧
    getHeader (requestInterceptor { token := some "abc", user := none }
        defaultConfig).headers "Authorization" = some ("Bearer " ++ "abc") :=
  ⟨⟨rfl, by decide⟩,
    bearer_attached_for_nonempty_token { token := some "abc", user := none }
      defaultConfig "abc" rfl (by decide)⟩

/-- C3: on any error response whose status is not 401, the interceptor
leaves the client state (session store and location) entirely
unmodified, emits no effect, and rejects onward the original error,
which still carries the original status and parsed body. -/
theorem non_401_failure_passthrough
    (st : ClientState) (err : AxiosError) (resp : Response)
    (h : err.response = some resp) (hs : resp.status ≠ 401) :
    responseInterceptorRejected st err
      = (st, [], InterceptorResult.reject err) ∧
    (InterceptorResult.reject err : InterceptorResult)
      = InterceptorResult.reject { response := some resp } := by
  have hst : err.respStatus = some resp.status := by
    simp [AxiosError.respStatus, h]
  constructor
  · simp [responseInterceptorRejected, hst, hs]
  · cases err
    simp_all

/-- C3 witness: a 403 with a detail body passes through untouched. -/
theorem non_401_failure_passthrough_witness :
    (({ response := some { status := 403, data := { detail := some "no" } } }
        : AxiosError).response
      = some { status := 403, data := { detail := some "no" } } ∧
      (403 : Nat) ≠ 401) ∧
    (responseInterceptorRejected
        { store := { token := some "abc", user := some "u" },
          location := "/projects" }
        { response := some { status := 403, data := { detail := some "no" } } }
      = ({ store := { token := some "abc", user := some "u" },
           location := "/projects" }, [],
         InterceptorResult.reject
           { response :=
               some { status := 403, data := { detail := some "no" } } }) ∧
      (InterceptorResult.reject
          { response :=
              some { status := 403, data := { detail := some "no" } } }
          : InterceptorResult)
        = InterceptorResult.reject
            { response :=
                some { status := 403, data := { detail := some "no" } } }) :=
  ⟨⟨rfl, by decide⟩,
    non_401_failure_passthrough
      { store := { token := some "abc", user := some "u" },
        location := "/projects" }
      { response := some { status := 403, data := { detail := some "no" } } }
      { status := 403, data := { detail := some "no" } } rfl (by decide)⟩

/-- C4: a request that receives a 401 still fails for its caller: the
interceptor result is a rejection carrying the very error, so the
global handler does not swallow it. -/
theorem caller_still_rejected_on_401
    (st : ClientState) (err : AxiosError) (resp : Response)
    (h : err.response = some resp) (h401 : resp.status = 401) :
    (responseInterceptorRejected st err).2.2
      = InterceptorResult.reject err := by
  have hst : err.respStatus = some 401 := by
    simp [AxiosError.respStatus, h, h401]
  by_cases hloc : st.location = "/login" <;>
    simp [responseInterceptorRejected, hst, hloc]

/-- C4 witness: the 401 reaching the interceptor is rejected onward. -/
theorem caller_still_rejected_on_401_witness :
    (({ response := some { status := 401, data := {} } } :
        AxiosError).response = some { status := 401, data := {} } ∧
      (401 : Nat) = 401) ∧
    (responseInterceptorRejected
        { store := { token := some "t", user := none },
          location := "/issues" }
        { response := some { status := 401, data := {} } }).2.2
      = InterceptorResult.reject
          { response := some { status := 401, data := {} } } :=
  ⟨⟨rfl, rfl⟩,
    caller_still_rejected_on_401
      { store := { token := some "t", user := none }, location := "/issues" }
      { response := some { status := 401, data := {} } }
      { status := 401, data := {} } rfl rfl⟩

/-- C5: while no token is present in the session store, the
interceptor leaves every request configuration unchanged, and in
particular the transmitted request built from the instance defaults
carries no authorization header at all. -/
theorem no_token_no_auth_header (st : Store) (cfg : RequestConfig)
    (h : st.token = none) :
    requestInterceptor st cfg = cfg ∧
    getHeader (requestInterceptor st defaultConfig).headers "Authorization"
      = none := by
  constructor
  · simp [requestInterceptor, h]
  · have h2 : requestInterceptor st defaultConfig = defaultConfig := by
      simp [requestInterceptor, h]
    rw [h2]
    decide

/-- C5 witness: with an absent token the default request goes out with
no authorization header. -/
theorem no_token_no_auth_header_witness :
    (({ token := none, user := some "u" } : Store).token = none) ∧
    (requestInterceptor { token := none, user := some "u" } defaultConfig
      = defaultConfig ∧
    getHeader (requestInterceptor { token := none, user := some "u" }
        defaultConfig).headers "Authorization" = none) :=
  ⟨rfl,
    no_token_no_auth_header { token := none, user := some "u" }
      defaultConfig rfl⟩

/-- C8: an empty string stored under the token key leaves the key
present in the store, yet the interceptor attaches no authorization
header and passes every configuration through unchanged: the presence
test is JavaScript truthiness on the stored value, not key
existence. -/
theorem empty_token_treated_absent (st : Store) (cfg : RequestConfig)
    (h : st.token = some "") :
    st.token.isSome = true ∧
    requestInterceptor st cfg = cfg ∧
    getHeader (requestInterceptor st defaultConfig).headers "Authorization"
      = none := by
  refine ⟨by simp [h], by simp [requestInterceptor, h], ?_⟩
  have h2 : requestInterceptor st defaultConfig = defaultConfig := by
    simp [requestInterceptor, h]
  rw [h2]
  decide

/-- C8 witness: the empty-token store keeps its key but sends the
default request without an authorization header. -/
theorem empty_token_treated_absent_witness :
    (({ token := some "", user := some "u" } : Store).token = some "") ∧
    (({ token := some "", user := some "u" } : Store).token.isSome = true ∧
    requestInterceptor { token := some "", user := some "u" } defaultConfig
      = defaultConfig ∧
    getHeader (requestInterceptor { token := some "", user := some "u" }
        defaultConfig).headers "Authorization" = none) :=
  ⟨rfl,
    empty_token_treated_absent { token := some "", user := some "u" }
      defaultConfig rfl⟩

/-- C9: on a transport failure, where the error carries no response,
the interceptor leaves the client state unmodified, emits no effect,
and propagates the error unchanged: the guarded status test keeps the
401 branch from being entered. -/
theorem transport_failure_leaves_store
    (st : ClientState) (err : AxiosError) (h : err.response = none) :
    responseInterceptorRejected st err
      = (st, [], InterceptorResult.reject err) := by
  have hst : err.respStatus = none := by
    simp [AxiosError.respStatus, h]
  simp [responseInterceptorRejected, hst]

/-- C9 witness: a response-less error passes through with the store
intact. -/
theorem transport_failure_leaves_store_witness :
    (({ response := none } : AxiosError).response = none) ∧
    responseInterceptorRejected
        { store := { token := some "abc", user := some "u" },
          location := "/projects" }
        { response := none }
      = ({ store := { token := some "abc", user := some "u" },
           location := "/projects" }, [],
         InterceptorResult.reject { response := none }) :=
  ⟨rfl,
    transport_failure_leaves_store
      { store := { token := some "abc", user := some "u" },
        location := "/projects" }
      { response := none } rfl⟩

/-- C6 counterexample: deleteIssue does not return the parsed response
body verbatim. Two exchanges whose successful responses carry
different bodies yield the same wrapper result, so the result cannot
be the body; the source discards it and returns no value. -/
theorem delete_issue_discards_body_counterexample :
    ({ detail := some "a", rest := "x" } : RespBody)
      ≠ ({ detail := some "b", rest := "y" } : RespBody) ∧
    issuesAPI.deleteIssue
        (fun _ => Except.ok
          { status := 200, data := { detail := some "a", rest := "x" } }) 1
      = issuesAPI.deleteIssue
          (fun _ => Except.ok
            { status := 200, data := { detail := some "b", rest := "y" } })
          1 := by
  exact ⟨by decide, rfl⟩

/-- C6 amended: every resource wrapper is a pure pass-through of its
single HTTP exchange: on failure each propagates the error as-is, and
on success each returns the parsed response body verbatim, except
deleteIssue, which discards the successful response body and returns
no value. No wrapper validates, transforms, retries, or caches. -/
theorem wrappers_pass_through
    (ex : Exchange) (pid iid : Nat) (b : RespBody)
    (ps : List (String × String)) :
    authAPI.signup ex b
      = (ex { method := "post", url := "/auth/signup",
              body := some b }).map Response.data ∧
    authAPI.login ex b
      = (ex { method := "post", url := "/auth/login",
              body := some b }).map Response.data ∧
    authAPI.getCurrentUser ex
      = (ex { method := "get", url := "/auth/me" }).map Response.data ∧
    projectsAPI.getProjects ex
      = (ex { method := "get", url := "/projects" }).map Response.data ∧
    projectsAPI.createProject ex b
      = (ex { method := "post", url := "/projects",
              body := some b }).map Response.data ∧
    projectsAPI.getProject ex pid
      = (ex { method := "get",
              url := "/projects/" ++ toString pid }).map Response.data ∧
    projectsAPI.addMember ex pid b
      = (ex { method := "post",
              url := "/projects/" ++ toString pid ++ "/members",
              body := some b }).map Response.data ∧
    issuesAPI.getIssues ex pid ps
      = (ex { method := "get",
              url := "/projects/" ++ toString pid ++ "/issues",
              params := ps }).map Response.data ∧
    issuesAPI.createIssue ex pid b
      = (ex { method := "post",
              url := "/projects/" ++ toString pid ++ "/issues",
              body := some b }).map Response.data ∧
    issuesAPI.getIssue ex iid
      = (ex { method := "get",
              url := "/issues/" ++ toString iid }).map Response.data ∧
    issuesAPI.updateIssue ex iid b
      = (ex { method := "patch", url := "/issues/" ++ toString iid,
              body := some b }).map Response.data ∧
    issuesAPI.deleteIssue ex iid
      = (ex { method := "delete",
              url := "/issues/" ++ toString iid }).map (fun _ => ()) ∧
    commentsAPI.getComments ex iid
      = (ex { method := "get",
              url := "/issues/" ++ toString iid ++ "/comments"
            }).map Response.data ∧
    commentsAPI.createComment ex iid b
      = (ex { method := "post",
              url := "/issues/" ++ toString iid ++ "/comments",
              body := some b }).map Response.data := by
  refine ⟨?_, ?_, ?_, ?_, ?_, ?_, ?_, ?_, ?_, ?_, ?_, ?_, ?_, ?_⟩ <;>
    first
      | exact passThrough_data _
      | exact passThrough_unit _

/-- C7 counterexample: an error body whose detail field is present but
holds the empty string makes both catch blocks fall back to their
generic message instead of using the present detail value, so the
claim fails as stated. -/
theorem empty_detail_falls_back_counterexample :
    ({ response := some { status := 400, data := { detail := some "" } } }
        : AxiosError).bodyDetail = some "" ∧
    loginFailureMessage
        { response := some { status := 400, data := { detail := some "" } } }
      = "Login failed. Please try again." ∧
    addMemberFailureMessage
        { response := some { status := 400, data := { detail := some "" } } }
      = "Failed to add member" := by
  refine ⟨rfl, by decide, by decide⟩

/-- C7 amended: each calling form derives the user-visible message
from the detail field of the parsed error body when that field is
present and non-empty, and otherwise (field absent, body absent, or
detail equal to the empty string) falls back to its fixed generic
static message. -/
theorem failure_message_detail_or_generic (err : AxiosError) :
    (∀ d : String, err.bodyDetail = some d → d ≠ "" →
      loginFailureMessage err = d ∧ addMemberFailureMessage err = d) ∧
    ((err.bodyDetail = none ∨ err.bodyDetail = some "") →
      loginFailureMessage err = "Login failed. Please try again." ∧
      addMemberFailureMessage err = "Failed to add member") := by
  constructor
  · intro d hd hne
    constructor <;>
      simp [loginFailureMessage, addMemberFailureMessage, jsOrElse, hd, hne]
  · rintro (hn | he) <;>
      constructor <;>
        simp [loginFailureMessage, addMemberFailureMessage, jsOrElse, *]

/-- C7 witness: a 400 whose body detail reads Bad credentials is shown
verbatim by both catch blocks. -/
theorem failure_message_detail_or_generic_witness :
    (({ response := some
          { status := 400, data := { detail := some "Bad credentials" } } }
        : AxiosError).bodyDetail = some "Bad credentials" ∧
      "Bad credentials" ≠ "") ∧
    (loginFailureMessage
        { response := some
            { status := 400, data := { detail := some "Bad credentials" } } }
      = "Bad credentials" ∧
    addMemberFailureMessage
        { response := some
            { status := 400, data := { detail := some "Bad credentials" } } }
      = "Bad credentials") :=
  ⟨⟨rfl, by decide⟩,
    (failure_message_detail_or_generic
        { response := some
            { status := 400,
              data := { detail := some "Bad credentials" } } }).1
      "Bad credentials" rfl (by decide)⟩

/-- C10: at bootstrap with a truthy token in the store, any failure of
the initial current-user fetch, including a transport failure with no
response, makes the provider remove both the token and the cached user
from the store, set no user, and finish initialization (loading
cleared) without rethrowing: initAuth is total and yields a plain
state, never an error. -/
theorem init_auth_clears_on_any_failure (store : Store) (t : String)
    (e : AxiosError) (h : store.token = some t) (hne : t ≠ "") :
    initAuth store (Except.error e)
      = ({ token := none, user := none },
         { user := none, loading := false }) := by
  simp [initAuth, h, hne]

/-- C10 witness: a transport failure during the bootstrap profile
fetch clears the stored token and cached user and sets no user. -/
theorem init_auth_clears_on_any_failure_witness :
    (({ token := some "tok", user := some "cached" } : Store).token
        = some "tok" ∧ "tok" ≠ "") ∧
    initAuth { token := some "tok", user := some "cached" }
        (Except.error { response := none })
      = ({ token := none, user := none },
         { user := none, loading := false }) :=
  ⟨⟨rfl, by decide⟩,
    init_auth_clears_on_any_failure
      { token := some "tok", user := some "cached" } "tok"
      { response := none } rfl (by decide)⟩
